import Mathlib

set_option maxRecDepth 16384

/-!
Verification of `cloudict` (`src/cloudict/webdict.py`): a lazily-populated
key-value mapping (`WebDict`, a `collections.UserDict` subclass) whose values
are resolved on first access through a key → url → bytes → value pipeline,
with an `lru_cache`d fetch layer and CSV/TSV bulk-loading specializations.

Modelling conventions:
* byte payloads and text are both modelled as `String` (payloads in the
  claims are printable ASCII without quotes or escapes);
* Python exceptions are modelled by the inductive `Exn`; the class hierarchy
  of `webdict.py` (lines 16-53) is captured by `Exn.isWebDictError`:
  `UnavailableWebResourceError` and `InvalidWebResourceError` derive from
  `WebDictError`, while `KeyError` and `RuntimeError` are builtins outside
  that hierarchy;
* the backing `dict` (`UserDict.data`) is an insertion-ordered association
  list `Dict V` with Python `dict` semantics: `dset` overwrites in place;
* mutating callbacks (`post_processor`) are modelled in state-passing style,
  returning the final dict together with an optional raised exception, so
  that entries inserted before an exception are retained, as in Python;
* the network transport (`urllib.request.urlopen(url).read()`) is an oracle
  `Transport : String → Except String String` whose `error` carries
  `URLError.reason`.
-/

/-- Python exceptions raised by `webdict.py` and by the code it calls.
`unavailableWebResource` and `invalidWebResource` model the two classes
derived from `WebDictError`; `keyError` and `runtimeError` model the Python
builtins of the same names; `langError` models other builtin exceptions
(`TypeError`, `IndexError`, ...) raised by library or user code. -/
inductive Exn where
  | unavailableWebResource : String → Exn
  | invalidWebResource : String → Exn
  | keyError : String → Exn
  | runtimeError : String → Exn
  | langError : String → Exn
deriving Repr, DecidableEq

/-- Which exceptions are instances of the `WebDictError` base class
(`webdict.py` lines 16-53): exactly `UnavailableWebResourceError` and
`InvalidWebResourceError`. `KeyError` and `RuntimeError` are Python builtins
and do not derive from `WebDictError`. -/
def Exn.isWebDictError : Exn → Bool
  | .unavailableWebResource _ => true
  | .invalidWebResource _ => true
  | .keyError _ => false
  | .runtimeError _ => false
  | .langError _ => false

/-- `true` iff an `Except` value is a success. -/
def exceptIsOk {E A : Type} : Except E A → Bool
  | .ok _ => true
  | .error _ => false

/-- The backing mapping `UserDict.data`: an insertion-ordered association
list with string keys, as a model of a Python `dict`. -/
abbrev Dict (V : Type) := List (String × V)

/-- Lookup (`dict.__getitem__` / `key in d`): first binding wins; `dset`
keeps keys unique so the first binding is the only one. -/
def dget {V : Type} : Dict V → String → Option V
  | [], _ => none
  | (ke, v) :: rest, k => if ke = k then some v else dget rest k

/-- Insertion `d[key] = value` with Python `dict` semantics: overwriting an
existing key keeps its position, a new key is appended. -/
def dset {V : Type} : Dict V → String → V → Dict V
  | [], k, v => [(k, v)]
  | (ke, ve) :: rest, k, v =>
    if ke = k then (k, v) :: rest else (ke, ve) :: dset rest k v

theorem dget_dset_self {V : Type} (d : Dict V) (k : String) (v : V) :
    dget (dset d k v) k = some v := by
  induction d with
  | nil => simp [dset, dget]
  | cons p rest ih =>
    by_cases h : p.1 = k
    · simp [dset, dget, h]
    · simp [dset, dget, h, ih]

theorem dget_dset_ne {V : Type} (d : Dict V) (k kx : String) (v : V)
    (h : kx ≠ k) : dget (dset d k v) kx = dget d kx := by
  have hkk : k ≠ kx := Ne.symm h
  induction d with
  | nil => simp [dset, dget, hkk]
  | cons p rest ih =>
    by_cases hk : p.1 = k
    · simp [dset, dget, hk, hkk]
    · by_cases hx : p.1 = kx
      · simp [dset, dget, hk, hx, h]
      · simp [dset, dget, hk, hx, ih]

/-- Remove a key from an association list (used to model the
recency-reordering of `lru_cache` on a hit). -/
def dremove {V : Type} : Dict V → String → Dict V
  | [], _ => []
  | (ke, ve) :: rest, k =>
    if ke = k then dremove rest k else (ke, ve) :: dremove rest k

/-- A single-quote character, for rendering Python `bytes` literals. -/
def pyq : String := "\x27"

/-- Split a character list into chunks of at most 76 characters; the fuel
argument (instantiated with the list length) makes the recursion
structural. `pprint` wraps the repr of a long `bytes` object into chunks of
76 content bytes per line at its default width of 80. -/
def chunksAux : Nat → List Char → List (List Char)
  | _, [] => []
  | 0, _ :: _ => []
  | fuel + 1, c :: cs => ((c :: cs).take 76) :: chunksAux fuel ((c :: cs).drop 76)

/-- The 76-character chunks of a payload, as strings. -/
def bytesChunks (s : String) : List String :=
  (chunksAux s.data.length s.data).map fun cs => String.mk cs

/-- Concatenation of a list of strings. -/
def concatChunks : List String → String
  | [] => ""
  | c :: cs => c ++ concatChunks cs

/-- Model of `pprint.pformat` applied to a byte payload (`webdict.py` line
159, payloads of printable ASCII without quotes or escapes): the complete
payload rendered as a Python `bytes` literal, wrapped into 76-byte chunks
across lines when it does not fit on one line — wrapping, never
truncating. -/
def pformat (s : String) : String :=
  match bytesChunks s with
  | [] => "b" ++ pyq ++ pyq
  | [c] => "b" ++ pyq ++ c ++ pyq
  | cs => "(" ++ String.intercalate ("\n ") (cs.map fun c => "b" ++ pyq ++ c ++ pyq) ++ ")"

theorem chunksAux_append (fuel : Nat) (l : List Char) (h : l.length ≤ fuel) :
    (chunksAux fuel l).foldr (· ++ ·) [] = l := by
  induction fuel generalizing l with
  | zero =>
    have : l = [] := List.length_eq_zero.mp (Nat.le_zero.mp h)
    simp [this, chunksAux]
  | succ n ih =>
    cases l with
    | nil => simp [chunksAux]
    | cons c cs =>
      have hlen : ((c :: cs).drop 76).length ≤ n := by
        simp only [List.length_drop]
        omega
      show (c :: cs).take 76 ++ (chunksAux n ((c :: cs).drop 76)).foldr (· ++ ·) [] = c :: cs
      rw [ih _ hlen, List.take_append_drop]

/-- The chunks of a payload reassemble to the entire payload: the rendering
behind `pformat` contains the full content, nothing is dropped. -/
theorem bytesChunks_concat (s : String) : concatChunks (bytesChunks s) = s := by
  have key : ∀ (ls : List (List Char)),
      concatChunks (ls.map fun cs => String.mk cs) = String.mk (ls.foldr (· ++ ·) []) := by
    intro ls
    induction ls with
    | nil => rfl
    | cons x xs ih =>
      simp only [List.map_cons, concatChunks, ih, List.foldr_cons]
      rfl
  calc concatChunks (bytesChunks s)
      = String.mk ((chunksAux s.data.length s.data).foldr (· ++ ·) []) := key _
    _ = String.mk s.data := by rw [chunksAux_append _ _ (Nat.le_refl _)]
    _ = s := rfl

/-- The network transport collaborator behind
`urllib.request.urlopen(url).read()`: per URL either the retrieved bytes or
a `URLError` whose `reason` is the carried string. -/
abbrev Transport := String → Except String String

/-- `_retrieve` (`webdict.py` lines 61-65): fetch the URL, converting a
`URLError` into `UnavailableWebResourceError` with the message
`failed to get {url}: {reason}`. One transport attempt, no retry. -/
def «_retrieve» (tr : Transport) (url : String) : Except Exn String :=
  match tr url with
  | .ok data => .ok data
  | .error reason =>
    .error (.unavailableWebResource ("failed to get " ++ url ++ ": " ++ reason))

/-- The `maxsize` of the `lru_cache` on `_cached_retrieve`
(`webdict.py` line 56). -/
def CACHE_MAXSIZE : Nat := 65536

/-- The process-wide memoization state of `_cached_retrieve`: url → bytes,
most-recently-used first. -/
abbrev CacheState := List (String × String)

instance {E A : Type} [DecidableEq E] [DecidableEq A] : DecidableEq (Except E A) := fun x y =>
  match x, y with
  | .ok a, .ok b =>
    if h : a = b then .isTrue (by rw [h]) else .isFalse fun hh => h (Except.ok.inj hh)
  | .error a, .error b =>
    if h : a = b then .isTrue (by rw [h]) else .isFalse fun hh => h (Except.error.inj hh)
  | .ok _, .error _ => .isFalse fun hh => Except.noConfusion hh
  | .error _, .ok _ => .isFalse fun hh => Except.noConfusion hh

/-- Outcome of a fetch: the result, the cache state afterwards, and how
many underlying transport calls were issued (0 or 1). -/
structure FetchOut where
  result : Except Exn String
  cache : CacheState
  transportCalls : Nat
deriving Repr, DecidableEq

/-- `_cached_retrieve` (`webdict.py` lines 56-58): `_retrieve` memoized by
exact URL string under `@lru_cache(maxsize=65536)`. A hit returns the
cached bytes without a transport call and marks the entry most recently
used; a miss calls `_retrieve`, caches a success (evicting the
least-recently-used entry when the bound is exceeded), and caches nothing
on an exception (as `lru_cache` does not cache raised exceptions). -/
def «_cached_retrieve» (tr : Transport) (c : CacheState) (url : String) : FetchOut :=
  match dget c url with
  | some data => ⟨.ok data, (url, data) :: dremove c url, 0⟩
  | none =>
    match «_retrieve» tr url with
    | .ok data =>
      let grown := (url, data) :: c
      ⟨.ok data, if CACHE_MAXSIZE < grown.length then grown.dropLast else grown, 1⟩
    | .error e => ⟨.error e, c, 1⟩

/-- The fetch dispatch inside `WebDict.__missing__` (`webdict.py` line 154):
`_cached_retrieve(url) if self.cache_enabled else _retrieve(url)`. -/
def fetch_step (cacheEnabled : Bool) (tr : Transport) (c : CacheState) (url : String) : FetchOut :=
  if cacheEnabled then «_cached_retrieve» tr c url else ⟨«_retrieve» tr url, c, 1⟩

/-- The configuration held by a `WebDict` instance (`webdict.py` lines
136-149), typed: `P` is the type produced by `response_processor`, `V` the
value type stored in the backing mapping (for plain `WebDict` the two
coincide; for `WebCSV` parsing yields text while rows are stored).
`make_url` returns `Option String` because the Python default `url_maker`
is `lambda key: None`; `parse_response` returns `Except String P`, the
error carrying `str(e)` of the raised exception; `post_process` is in
state-passing style: final dict plus optionally the exception it raised
(insertions made before the exception are kept, as Python mutation is not
rolled back). -/
structure Config (P V : Type) where
  make_url : String → Option String
  parse_response : String → Except String P
  post_process : Dict V → String → P → Dict V × Option Exn
  cache_enabled : Bool

/-- How many times each pipeline stage ran during one lookup:
`url_maker`, underlying transport calls, `response_processor`,
`post_processor`. -/
structure PipeCount where
  urlCalls : Nat
  transportCalls : Nat
  parseCalls : Nat
  distributeCalls : Nat
deriving Repr, DecidableEq

/-- Result of one `d[key]` lookup: outcome, backing mapping afterwards,
shared fetch-cache state afterwards, and stage counts. -/
structure GetResult (V : Type) where
  result : Except Exn V
  map : Dict V
  cache : CacheState
  count : PipeCount
deriving DecidableEq

/-- One lookup `d[key]` on a `WebDict`: `UserDict.__getitem__` returns the
stored value when `key` is in the backing mapping (fast path, no pipeline
stage runs), and otherwise dispatches to `WebDict.__missing__`
(`webdict.py` lines 151-167): build the URL, fetch (cached or not), parse
(any parse exception re-raised as `InvalidWebResourceError` carrying the
URL, the error and `pformat(data)`), run `post_process`, then re-read
`key` from the mapping — raising `KeyError(key)` when still absent, else
returning the re-read value. A `url_maker` returning `None` makes
`urlopen(None)` fail with an ordinary builtin exception. -/
def WebDict_get {P V : Type} (cfg : Config P V) (tr : Transport)
    (d : Dict V) (c : CacheState) (key : String) : GetResult V :=
  match dget d key with
  | some v => ⟨.ok v, d, c, ⟨0, 0, 0, 0⟩⟩
  | none =>
    match cfg.make_url key with
    | none => ⟨.error (.langError "urlopen: url must be a string"), d, c, ⟨1, 0, 0, 0⟩⟩
    | some url =>
      match fetch_step cfg.cache_enabled tr c url with
      | ⟨.error e, fc, fn⟩ => ⟨.error e, d, fc, ⟨1, fn, 0, 0⟩⟩
      | ⟨.ok data, fc, fn⟩ =>
        match cfg.parse_response data with
        | .error emsg =>
          ⟨.error (.invalidWebResource
              ("failed to parse response from " ++ url ++ ": " ++ emsg
                ++ "\n" ++ pformat data)),
            d, fc, ⟨1, fn, 1, 0⟩⟩
        | .ok value =>
          match cfg.post_process d key value with
          | (dd, some e) => ⟨.error e, dd, fc, ⟨1, fn, 1, 1⟩⟩
          | (dd, none) =>
            match dget dd key with
            | none => ⟨.error (.keyError key), dd, fc, ⟨1, fn, 1, 1⟩⟩
            | some v => ⟨.ok v, dd, fc, ⟨1, fn, 1, 1⟩⟩

/-- The Python default for `url_maker`: `lambda key: None`
(`webdict.py` line 137). -/
def default_url_maker : String → Option String := fun _ => none

/-- The Python default for `response_processor`: `lambda s: s`, the
identity, which never raises (`webdict.py` line 138). -/
def default_response_processor : String → Except String String := fun s => .ok s

/-- The Python default for `post_processor`:
`lambda d, key, value: collections.UserDict.__setitem__(d, key, value)` —
install the parsed value exactly at the requested key, raising nothing
(`webdict.py` line 139). -/
def default_post_processor {V : Type} : Dict V → String → V → Dict V × Option Exn :=
  fun d key value => (dset d key value, none)

/-- `WebDict.__init__` (`webdict.py` lines 136-149). An omitted argument is
modelled by passing its Python default explicitly: `some default_url_maker`
for `url_maker` (the Python default is the function `lambda key: None`,
not `None`); `none` models passing `url_maker=None` explicitly, the only
case in which the `RuntimeError("you need a url_maker")` guard fires. -/
def WebDict_init {P V : Type} (url_maker : Option (String → Option String))
    (response_processor : String → Except String P)
    (post_processor : Dict V → String → P → Dict V × Option Exn)
    (cache : Bool) : Except Exn (Config P V) :=
  match url_maker with
  | none => .error (.runtimeError "you need a url_maker")
  | some f =>
    .ok { make_url := f, parse_response := response_processor,
          post_process := post_processor, cache_enabled := cache }

/-- A row of a delimited table, as the field-name → field-value mapping
that `csv.DictReader` yields per data row. -/
abbrev CsvRecord := List (String × String)

/-- Split a character list at every occurrence of a separator character;
the result is always nonempty, and splitting the empty list yields one
empty group (like Python `"".split(sep) == ['']`). -/
def splitChar (sep : Char) : List Char → List (List Char)
  | [] => [[]]
  | c :: cs =>
    match splitChar sep cs with
    | [] => [[]]
    | grp :: rest => if c = sep then [] :: grp :: rest else (c :: grp) :: rest

/-- String split on a single separator character (csv delimiters are
single characters). -/
def strSplit (sep : Char) (s : String) : List String :=
  (splitChar sep s.data).map fun cs => String.mk cs

/-- Python `str.splitlines` restricted to `\n` separators (the claims use
`\n`-separated tables): splitting on newline, except that a trailing
newline does not contribute a final empty line, and the empty string has
no lines. -/
def splitlines (s : String) : List String :=
  let ls := strSplit (Char.ofNat 10) s
  if ls.getLast? = some "" then ls.dropLast else ls

/-- The record `csv.DictReader` builds for one data row (unquoted fields):
field names zipped with the line split on the delimiter. -/
def csv_row_record (fieldnames : List String) (delim : Char) (line : String) : CsvRecord :=
  fieldnames.zip (strSplit delim line)

/-- The key-field value of one data line: `record[key_field]`. -/
def csvRowKey (fieldnames : List String) (delim : Char) (keyField : String) (line : String) : Option String :=
  dget (csv_row_record fieldnames delim line) keyField

/-- The body of the `for record in csv_as_list_of_dict` loop of
`WebCSV.load_lines` (`webdict.py` lines 177-179): `d[record[key_field]] =
record`. A blank line yields no record (`csv.reader` emits `[]` there and
`DictReader` skips it); a line too short to contain the key field is also
skipped (where `DictReader` would pad with `restval=None`, unexercised
here since every data line in the claims carries its key field). -/
def WebCSV_insert_row (fieldnames : List String) (delim : Char) (keyField : String)
    (acc : Dict CsvRecord) (line : String) : Dict CsvRecord :=
  if line = "" then acc
  else
    match csvRowKey fieldnames delim keyField line with
    | some k => dset acc k (csv_row_record fieldnames delim line)
    | none => acc

/-- The exception from `WebCSV.load_lines` on a resource with no lines at
all: `csv.DictReader([]).fieldnames` is `None`, so `fieldnames[key_pos]`
raises a builtin `TypeError`. -/
def no_header_error : Exn :=
  .langError "TypeError: NoneType object is not subscriptable"

/-- `WebCSV.load_lines` (`webdict.py` lines 172-179), the `post_processor`
of `WebCSV`: read the text as a header-led delimited table (first line =
field names), take the key field name at `key_pos` (a builtin `IndexError`
when out of range), and insert every data row keyed by its key-field
value. The requested key is ignored. -/
def WebCSV_load_lines (delim : Char) (key_pos : Nat)
    (d : Dict CsvRecord) (_requested : String) (s : String) : Dict CsvRecord × Option Exn :=
  match splitlines s with
  | [] => (d, some no_header_error)
  | header :: rows =>
    let fieldnames := strSplit delim header
    match fieldnames.get? key_pos with
    | none => (d, some (.langError "IndexError: list index out of range"))
    | some keyField =>
      (rows.foldl (WebCSV_insert_row fieldnames delim keyField) d, none)

/-- `WebCSV.__init__` (`webdict.py` lines 170-181): a `WebDict` whose
`url_maker` ignores the key and returns the fixed `csv_url`, whose
`response_processor` is `bytes.decode` (identity on our text-modelled
payloads, never raising on them), whose `post_processor` is `load_lines`,
and whose caching is disabled. -/
def WebCSV_config (csv_url : String) (delim : Char) (key_pos : Nat) : Config String CsvRecord :=
  { make_url := fun _ => some csv_url
    parse_response := fun s => .ok s
    post_process := WebCSV_load_lines delim key_pos
    cache_enabled := false }

/-- `WebTSV.__init__` (`webdict.py` lines 184-195): `WebCSV` with a tab
delimiter. -/
def WebTSV_config (tsv_url : String) (key_pos : Nat) : Config String CsvRecord :=
  WebCSV_config tsv_url (Char.ofNat 9) key_pos

theorem WebDict_get_ok_mem {P V : Type} {cfg : Config P V} {tr : Transport}
    {d : Dict V} {c : CacheState} {key : String} {v : V} {dd : Dict V}
    {cc : CacheState} {n : PipeCount}
    (h : WebDict_get cfg tr d c key = ⟨.ok v, dd, cc, n⟩) :
    dget dd key = some v := by
  cases hd : dget d key with
  | some w =>
    simp only [WebDict_get, hd, GetResult.mk.injEq, Except.ok.injEq] at h
    obtain ⟨rfl, rfl, -, -⟩ := h
    exact hd
  | none =>
    cases hu : cfg.make_url key with
    | none => simp [WebDict_get, hd, hu] at h
    | some url =>
      rcases hfo : fetch_step cfg.cache_enabled tr c url with ⟨fr, fc, fn⟩
      cases fr with
      | error e => simp [WebDict_get, hd, hu, hfo] at h
      | ok data =>
        cases hp : cfg.parse_response data with
        | error emsg => simp [WebDict_get, hd, hu, hfo, hp] at h
        | ok value =>
          rcases hpost : cfg.post_process d key value with ⟨dd2, oe⟩
          cases oe with
          | some e => simp [WebDict_get, hd, hu, hfo, hp, hpost] at h
          | none =>
            cases hw : dget dd2 key with
            | none => simp [WebDict_get, hd, hu, hfo, hp, hpost, hw] at h
            | some w =>
              simp only [WebDict_get, hd, hu, hfo, hp, hpost, hw,
                GetResult.mk.injEq, Except.ok.injEq] at h
              obtain ⟨rfl, rfl, -, -⟩ := h
              exact hw

theorem fetch_step_error_unavailable {b : Bool} {tr : Transport} {c : CacheState}
    {url : String} {e : Exn} {fc : CacheState} {fn : Nat}
    (h : fetch_step b tr c url = ⟨.error e, fc, fn⟩) :
    ∃ m, e = .unavailableWebResource m := by
  cases b with
  | false =>
    simp only [fetch_step, Bool.false_eq_true, if_false, FetchOut.mk.injEq] at h
    obtain ⟨h1, -, -⟩ := h
    unfold «_retrieve» at h1
    cases ht : tr url with
    | ok data => rw [ht] at h1; simp at h1
    | error reason =>
      rw [ht] at h1
      simp only [Except.error.injEq] at h1
      exact ⟨_, h1.symm⟩
  | true =>
    simp only [fetch_step, if_true] at h
    cases hc : dget c url with
    | some data => simp [«_cached_retrieve», hc] at h
    | none =>
      cases ht : tr url with
      | ok data => simp [«_cached_retrieve», «_retrieve», hc, ht] at h
      | error reason =>
        simp only [«_cached_retrieve», «_retrieve», hc, ht, FetchOut.mk.injEq,
          Except.error.injEq] at h
        obtain ⟨h1, -, -⟩ := h
        exact ⟨_, h1.symm⟩

theorem WebDict_get_miss_cache_count {P V : Type} {cfg : Config P V} {tr : Transport}
    {d : Dict V} {c : CacheState} {key url : String}
    (hd : dget d key = none) (hu : cfg.make_url key = some url) :
    (WebDict_get cfg tr d c key).cache = (fetch_step cfg.cache_enabled tr c url).cache ∧
    (WebDict_get cfg tr d c key).count.transportCalls
      = (fetch_step cfg.cache_enabled tr c url).transportCalls := by
  rcases hfo : fetch_step cfg.cache_enabled tr c url with ⟨fr, fc, fn⟩
  cases fr with
  | error e => simp [WebDict_get, hd, hu, hfo]
  | ok data =>
    cases hp : cfg.parse_response data with
    | error emsg => simp [WebDict_get, hd, hu, hfo, hp]
    | ok value =>
      rcases hpost : cfg.post_process d key value with ⟨dd2, oe⟩
      cases oe with
      | some e => simp [WebDict_get, hd, hu, hfo, hp, hpost]
      | none =>
        cases hw : dget dd2 key with
        | none => simp [WebDict_get, hd, hu, hfo, hp, hpost, hw]
        | some w => simp [WebDict_get, hd, hu, hfo, hp, hpost, hw]

/-- A concrete transport for witnesses: serves `"payload"` at
`http://t/a` and fails with a DNS-style `URLError` reason elsewhere. -/
def trA : Transport := fun u =>
  if u = "http://t/a" then .ok "payload" else .error "nodename nor servname provided"

/-- A concrete point-lookup map whose `post_processor` installs a
transformed value (`value ++ "!"`) at the requested key. -/
def cfgA : Config String String :=
  { make_url := fun k => some ("http://t/" ++ k)
    parse_response := fun s => .ok s
    post_process := fun d key value => (dset d key (value ++ "!"), none)
    cache_enabled := true }

/-- A concrete map whose `post_processor` inserts nothing. -/
def cfgNoop : Config String String :=
  { make_url := fun k => some ("http://t/" ++ k)
    parse_response := fun s => .ok s
    post_process := fun d _ _ => (d, none)
    cache_enabled := false }

/-- **C1.** For every map and every key absent from the backing mapping, if
the lookup succeeds then the key is present in the backing mapping
afterwards and the returned value is the one re-read from the backing
mapping after the distribute step — so any transformation applied by the
distribute step is reflected in the returned value. -/
theorem get_success_key_present_and_reread {P V : Type} (cfg : Config P V)
    (tr : Transport) (d : Dict V) (c : CacheState) (key : String) (v : V)
    (dd : Dict V) (cc : CacheState) (n : PipeCount)
    (_habsent : dget d key = none)
    (h : WebDict_get cfg tr d c key = ⟨.ok v, dd, cc, n⟩) :
    dget dd key = some v :=
  WebDict_get_ok_mem h

/-- Witness for C1: looking up `"a"` on `cfgA` parses `"payload"` but
stores and returns the transformed `"payload!"`, re-read from the map. -/
theorem get_success_key_present_and_reread_witness :
    dget [("a", "payload!")] "a" = some "payload!" :=
  get_success_key_present_and_reread cfgA trA [] [] "a" "payload!"
    [("a", "payload!")] [("http://t/a", "payload")] ⟨1, 1, 1, 1⟩ rfl (by decide)

/-- **C5.** For every key, once a lookup has succeeded the key is stored,
so a second lookup returns the same value through the fast path: the
backing mapping and fetch cache are unchanged and no pipeline stage
(`url_maker`, transport, `response_processor`, `post_processor`) runs. -/
theorem get_idempotent_fast_path {P V : Type} (cfg : Config P V) (tr : Transport)
    (d : Dict V) (c : CacheState) (key : String) (v : V) (dd : Dict V)
    (cc : CacheState) (n : PipeCount)
    (h : WebDict_get cfg tr d c key = ⟨.ok v, dd, cc, n⟩) :
    WebDict_get cfg tr dd cc key = ⟨.ok v, dd, cc, ⟨0, 0, 0, 0⟩⟩ := by
  have hm := WebDict_get_ok_mem h
  simp [WebDict_get, hm]

/-- Witness for C5: the second lookup of `"a"` on `cfgA` returns the same
value with zero pipeline-stage invocations. -/
theorem get_idempotent_fast_path_witness :
    WebDict_get cfgA trA [("a", "payload!")] [("http://t/a", "payload")] "a"
      = ⟨.ok "payload!", [("a", "payload!")], [("http://t/a", "payload")], ⟨0, 0, 0, 0⟩⟩ :=
  get_idempotent_fast_path cfgA trA [] [] "a" "payload!" [("a", "payload!")]
    [("http://t/a", "payload")] ⟨1, 1, 1, 1⟩ (by decide)

/-- **C2 counterexample.** When the distribute step leaves the requested
key absent, the lookup fails with the builtin `KeyError` — which does not
belong to the `WebDictError` base class that `UnavailableWebResourceError`
and `InvalidWebResourceError` share (`webdict.py` raises `KeyError(key)` at
line 165, and `KeyError` is not declared under `WebDictError`): the
common-resolution-error-base part of the claim is false. -/
theorem keyerror_not_webdicterror_counterexample :
    (WebDict_get cfgNoop trA [] [] "a").result = .error (.keyError "a") ∧
    (Exn.keyError "a").isWebDictError = false ∧
    (Exn.unavailableWebResource "u").isWebDictError = true ∧
    (Exn.invalidWebResource "u").isWebDictError = true := by
  decide

/-- **C2 (amended).** For every map and absent key, if fetch and parse
succeed but the key is still absent from the backing mapping after the
distribute step, the lookup fails with the builtin `KeyError` for that
key; that error does not belong to the `WebDictError` base class shared by
`UnavailableWebResourceError` and `InvalidWebResourceError`. -/
theorem still_absent_raises_keyerror {P V : Type} (cfg : Config P V)
    (tr : Transport) (d : Dict V) (c : CacheState) (key url data : String)
    (value : P) (dd : Dict V) (fc : CacheState) (fn : Nat)
    (hd : dget d key = none) (hu : cfg.make_url key = some url)
    (hf : fetch_step cfg.cache_enabled tr c url = ⟨.ok data, fc, fn⟩)
    (hp : cfg.parse_response data = .ok value)
    (hpost : cfg.post_process d key value = (dd, none))
    (habs : dget dd key = none) :
    WebDict_get cfg tr d c key = ⟨.error (.keyError key), dd, fc, ⟨1, fn, 1, 1⟩⟩ ∧
    (Exn.keyError key).isWebDictError = false :=
  ⟨by simp [WebDict_get, hd, hu, hf, hp, hpost, habs], rfl⟩

/-- Witness for amended C2: `cfgNoop` fetches and parses successfully yet
installs nothing, so looking up `"a"` raises `KeyError("a")`. -/
theorem still_absent_raises_keyerror_witness :
    WebDict_get cfgNoop trA [] [] "a"
      = ⟨.error (.keyError "a"), [], [], ⟨1, 1, 1, 1⟩⟩ ∧
    (Exn.keyError "a").isWebDictError = false :=
  still_absent_raises_keyerror cfgNoop trA [] [] "a" "http://t/a" "payload"
    "payload" [] [] 1 rfl rfl (by decide) rfl rfl rfl

/-- **C3 counterexample.** Constructing with every argument at its Python
default — in particular with `url_maker` omitted, which supplies the
default `lambda key: None` — succeeds and raises nothing: the
`RuntimeError("you need a url_maker")` guard only fires for an explicit
`url_maker=None`, so constructing without supplying `urlOf` is not an
immediate configuration error. -/
theorem init_default_url_maker_succeeds_counterexample :
    exceptIsOk (WebDict_init (some default_url_maker) default_response_processor
        (default_post_processor (V := String)) true) = true ∧
    WebDict_init (some default_url_maker) default_response_processor
        (default_post_processor (V := String)) true
      ≠ .error (.runtimeError "you need a url_maker") :=
  ⟨rfl, fun h => Except.noConfusion h⟩

/-- **C3 (amended).** Passing `url_maker=None` explicitly is the
configuration error that fails immediately at construction, with
`RuntimeError("you need a url_maker")`; omitting `url_maker` instead
substitutes the default `lambda key: None` and construction succeeds
(failure is deferred to the first lookup). The remaining options have
identity/no-op defaults and may be omitted: the default
`response_processor` is the identity and never raises, and the default
`post_processor` installs the value exactly at the requested key and never
raises. -/
theorem init_none_url_maker_fails {P V : Type}
    (rp : String → Except String P)
    (pp : Dict V → String → P → Dict V × Option Exn) (cb : Bool) :
    WebDict_init none rp pp cb = .error (.runtimeError "you need a url_maker") ∧
    exceptIsOk (WebDict_init (some default_url_maker) rp pp cb) = true ∧
    (∀ s, default_response_processor s = .ok s) ∧
    (∀ (d : Dict V) (k : String) (v : V),
      default_post_processor d k v = (dset d k v, none)) ∧
    (∀ k, default_url_maker k = none) :=
  ⟨rfl, rfl, fun _ => rfl, fun _ _ _ => rfl, fun _ => rfl⟩

/-- A 200-byte payload (200 times `x`). -/
def payload200 : String := String.mk (List.replicate 200 (Char.ofNat 120))

/-- A transport that always serves the 200-byte payload. -/
def trPayload : Transport := fun _ => .ok payload200

/-- A concrete map whose `response_processor` always raises. -/
def cfgBadParse : Config String String :=
  { make_url := fun k => some ("http://t/" ++ k)
    parse_response := fun _ => .error "Expecting value: line 1 column 1 (char 0)"
    post_process := default_post_processor
    cache_enabled := false }

/-- **C6 (amended).** For every map and absent key, if the fetch succeeds
but the parse function raises on the fetched bytes, the lookup raises
`InvalidWebResourceError` whose message includes the URL, the underlying
parse error and the complete pretty-printed payload: `pformat` wraps long
payloads across lines but never truncates, so the chunks of the rendering
reassemble to the entire payload (not a bounded excerpt). -/
theorem parse_failure_invalid {P V : Type} (cfg : Config P V) (tr : Transport)
    (d : Dict V) (c : CacheState) (key url data emsg : String)
    (fc : CacheState) (fn : Nat)
    (hd : dget d key = none) (hu : cfg.make_url key = some url)
    (hf : fetch_step cfg.cache_enabled tr c url = ⟨.ok data, fc, fn⟩)
    (hp : cfg.parse_response data = .error emsg) :
    (WebDict_get cfg tr d c key).result
      = .error (.invalidWebResource ("failed to parse response from " ++ url
          ++ ": " ++ emsg ++ "\n" ++ pformat data)) ∧
    concatChunks (bytesChunks data) = data :=
  ⟨by simp [WebDict_get, hd, hu, hf, hp], bytesChunks_concat data⟩

/-- Witness for amended C6: a failing parse on `cfgBadParse` produces the
`InvalidWebResourceError` message carrying URL, error and payload. -/
theorem parse_failure_invalid_witness :
    (WebDict_get cfgBadParse trPayload [] [] "a").result
      = .error (.invalidWebResource ("failed to parse response from "
          ++ "http://t/a" ++ ": " ++ "Expecting value: line 1 column 1 (char 0)"
          ++ "\n" ++ pformat payload200)) ∧
    concatChunks (bytesChunks payload200) = payload200 :=
  parse_failure_invalid cfgBadParse trPayload [] [] "a" "http://t/a" payload200
    "Expecting value: line 1 column 1 (char 0)" [] 1 rfl rfl (by decide) rfl

/-- **C6 counterexample.** With a 200-byte payload, the parse-failure
message embeds the payload in full: the chunks of its pretty-printed
rendering reassemble to the entire 200-byte payload and the rendering is
at least as long as the payload — the message carries the full content,
not a bounded excerpt of it. -/
theorem parse_failure_full_payload_counterexample :
    (WebDict_get cfgBadParse trPayload [] [] "a").result
      = .error (.invalidWebResource ("failed to parse response from "
          ++ "http://t/a" ++ ": " ++ "Expecting value: line 1 column 1 (char 0)"
          ++ "\n" ++ pformat payload200)) ∧
    concatChunks (bytesChunks payload200) = payload200 ∧
    200 ≤ (pformat payload200).length := by
  decide

/-- **C7.** For every map and absent key, if the underlying transport fails
for the built URL (the URL not being served from the fetch cache), the
lookup raises `UnavailableWebResourceError` whose message identifies the
URL and the underlying reason, after exactly one transport attempt — no
internal retry — leaving the backing mapping and the fetch cache
unchanged. -/
theorem transport_failure_unavailable {P V : Type} (cfg : Config P V)
    (tr : Transport) (d : Dict V) (c : CacheState) (key url reason : String)
    (hd : dget d key = none) (hu : cfg.make_url key = some url)
    (htr : tr url = .error reason) (hc : dget c url = none) :
    WebDict_get cfg tr d c key
      = ⟨.error (.unavailableWebResource ("failed to get " ++ url ++ ": " ++ reason)),
          d, c, ⟨1, 1, 0, 0⟩⟩ := by
  have hf : fetch_step cfg.cache_enabled tr c url
      = ⟨.error (.unavailableWebResource ("failed to get " ++ url ++ ": " ++ reason)),
          c, 1⟩ := by
    cases hb : cfg.cache_enabled with
    | false => simp [fetch_step, «_retrieve», htr]
    | true => simp [fetch_step, «_cached_retrieve», «_retrieve», hc, htr]
  simp [WebDict_get, hd, hu, hf]

/-- Witness for C7: `trA` fails for `http://t/b` and the lookup surfaces
the typed error naming that URL and the DNS reason, with one attempt. -/
theorem transport_failure_unavailable_witness :
    WebDict_get cfgA trA [] [] "b"
      = ⟨.error (.unavailableWebResource ("failed to get " ++ "http://t/b"
            ++ ": " ++ "nodename nor servname provided")),
          [], [], ⟨1, 1, 0, 0⟩⟩ :=
  transport_failure_unavailable cfgA trA [] [] "b" "http://t/b"
    "nodename nor servname provided" rfl rfl (by decide) rfl

/-- A concrete map with the default `post_processor` and an
always-succeeding `response_processor`. -/
def cfgDefault : Config String String :=
  { make_url := fun k => some ("http://t/" ++ k)
    parse_response := fun s => .ok s
    post_process := default_post_processor
    cache_enabled := true }

/-- **C9.** For every map whose distribute step is the default (install the
parsed value exactly at the requested key) and whose parse function always
succeeds, no lookup ever fails with `KeyError`: the
still-absent-after-distribution branch is unreachable. -/
theorem default_distribute_no_keyerror {V : Type} (cfg : Config V V)
    (tr : Transport) (d : Dict V) (c : CacheState) (key kx : String)
    (hpost : cfg.post_process = default_post_processor)
    (hp : ∀ s, exceptIsOk (cfg.parse_response s) = true) :
    (WebDict_get cfg tr d c key).result ≠ .error (.keyError kx) := by
  cases hd : dget d key with
  | some w => simp [WebDict_get, hd]
  | none =>
    cases hu : cfg.make_url key with
    | none => simp [WebDict_get, hd, hu]
    | some url =>
      rcases hfo : fetch_step cfg.cache_enabled tr c url with ⟨fr, fc, fn⟩
      cases fr with
      | error e =>
        obtain ⟨m, rfl⟩ := fetch_step_error_unavailable hfo
        simp [WebDict_get, hd, hu, hfo]
      | ok data =>
        cases hpr : cfg.parse_response data with
        | error emsg =>
          have hds := hp data
          rw [hpr] at hds
          simp [exceptIsOk] at hds
        | ok value =>
          have hpp : cfg.post_process d key value = (dset d key value, none) := by
            rw [hpost]; rfl
          simp [WebDict_get, hd, hu, hfo, hpr, hpp, dget_dset_self]

/-- Witness for C9: on `cfgDefault`, the lookup of `"a"` does not raise
`KeyError("a")`. -/
theorem default_distribute_no_keyerror_witness :
    (WebDict_get cfgDefault trA [] [] "a").result ≠ .error (.keyError "a") :=
  default_distribute_no_keyerror cfgDefault trA [] [] "a" "a" rfl (fun _ => rfl)

/-- The exception raised by the failing `post_processor` of `cfgBadPost`. -/
def distribute_error : Exn := .langError "ValueError: boom"

/-- A concrete map whose `post_processor` inserts one entry under another
key and then raises. -/
def cfgBadPost : Config String String :=
  { make_url := fun k => some ("http://t/" ++ k)
    parse_response := fun s => .ok s
    post_process := fun d _ v => (dset d "partial" v, some distribute_error)
    cache_enabled := false }

/-- **C10.** If the distribute step itself raises, the lookup propagates
exactly that exception unwrapped — it is not converted into
`InvalidWebResourceError` or any other error — and the entries distribute
inserted before failing remain in the backing mapping (no rollback); in
particular, on a `WebCSV`/`WebTSV` map a fetched resource with no header
line makes `load_lines` fail with the builtin `TypeError` from
subscripting the `None` fieldnames, an ordinary language-level error
outside the `WebDictError` hierarchy. -/
theorem distribute_exception_propagates {P V : Type} (cfg : Config P V)
    (tr : Transport) (d : Dict V) (c : CacheState) (key url data : String)
    (value : P) (dd : Dict V) (e : Exn) (fc : CacheState) (fn : Nat)
    (hd : dget d key = none) (hu : cfg.make_url key = some url)
    (hf : fetch_step cfg.cache_enabled tr c url = ⟨.ok data, fc, fn⟩)
    (hp : cfg.parse_response data = .ok value)
    (hpost : cfg.post_process d key value = (dd, some e)) :
    WebDict_get cfg tr d c key = ⟨.error e, dd, fc, ⟨1, fn, 1, 1⟩⟩ ∧
    (∀ (tr2 : Transport) (d2 : Dict CsvRecord) (c2 : CacheState)
        (key2 url2 : String) (delim : Char) (kp : Nat),
      dget d2 key2 = none → tr2 url2 = .ok "" →
      (WebDict_get (WebCSV_config url2 delim kp) tr2 d2 c2 key2).result
        = .error no_header_error) ∧
    no_header_error.isWebDictError = false := by
  refine ⟨by simp [WebDict_get, hd, hu, hf, hp, hpost], ?_, rfl⟩
  intro tr2 d2 c2 key2 url2 delim kp hd2 ht2
  have hsp : splitlines "" = [] := by decide
  have hload : WebCSV_load_lines delim kp d2 key2 "" = (d2, some no_header_error) := by
    simp [WebCSV_load_lines, hsp]
  have hf2 : fetch_step false tr2 c2 url2 = ⟨.ok "", c2, 1⟩ := by
    simp [fetch_step, «_retrieve», ht2]
  simp [WebDict_get, WebCSV_config, hd2, hf2, hload]

/-- Witness for C10: `cfgBadPost` inserts under `"partial"` and raises; the
lookup surfaces `distribute_error` itself and the inserted entry stays. -/
theorem distribute_exception_propagates_witness :
    WebDict_get cfgBadPost trA [] [] "a"
      = ⟨.error distribute_error, [("partial", "payload")], [], ⟨1, 1, 1, 1⟩⟩ :=
  (distribute_exception_propagates cfgBadPost trA [] [] "a" "http://t/a" "payload"
    "payload" [("partial", "payload")] distribute_error [] 1 rfl rfl (by decide)
    rfl rfl).1

/-- The last data row (if any) whose key-field value is `k`, skipping blank
lines: a specification device for the last-row-wins insertion order of
`load_lines`. -/
def lastMatchingRow (fieldnames : List String) (delim : Char) (keyField k : String) :
    List String → Option String
  | [] => none
  | r :: rs =>
    match lastMatchingRow fieldnames delim keyField k rs with
    | some l => some l
    | none =>
      if r ≠ "" ∧ csvRowKey fieldnames delim keyField r = some k then some r else none

theorem insert_row_fold_lookup (fieldnames : List String) (delim : Char)
    (keyField : String) (rows : List String) (d : Dict CsvRecord) (k : String) :
    dget (rows.foldl (WebCSV_insert_row fieldnames delim keyField) d) k
      = match lastMatchingRow fieldnames delim keyField k rows with
        | some line => some (csv_row_record fieldnames delim line)
        | none => dget d k := by
  induction rows generalizing d with
  | nil => simp [lastMatchingRow]
  | cons r rs ih =>
    rw [List.foldl_cons, ih]
    cases hlast : lastMatchingRow fieldnames delim keyField k rs with
    | some l => simp [lastMatchingRow, hlast]
    | none =>
      simp only [lastMatchingRow, hlast]
      by_cases hr : r ≠ "" ∧ csvRowKey fieldnames delim keyField r = some k
      · rw [if_pos hr]
        obtain ⟨hne, hkey⟩ := hr
        simp only [WebCSV_insert_row, if_neg hne, hkey]
        exact dget_dset_self d k (csv_row_record fieldnames delim r)
      · rw [if_neg hr]
        by_cases hne : r = ""
        · simp [WebCSV_insert_row, hne]
        · cases hkey : csvRowKey fieldnames delim keyField r with
          | none => simp [WebCSV_insert_row, hne, hkey]
          | some k2 =>
            have hk2 : k ≠ k2 := by
              intro hkk
              exact hr ⟨hne, by rw [hkey, hkk]⟩
            simp [WebCSV_insert_row, hne, hkey, dget_dset_ne _ _ _ _ hk2]

/-- **C4.** For every `WebCSV`/`WebTSV` map, on the first lookup of an
absent key the distribute step treats the fetched text as a header-led
delimited table (first line = field names, key field at the configured
zero-based column index) and inserts one entry per data row keyed by that
row's key-field value, the value being the full row as a
field-name-to-field-value record; for every key the resulting entry is the
record of the *last* row carrying that key-field value (last-row-wins by
insertion overwrite), and keys matching no row are untouched. `WebTSV` is
`WebCSV` at the tab delimiter. -/
theorem webcsv_flood_last_row_wins (csv_url : String) (delim : Char) (kp : Nat)
    (tr : Transport) (d : Dict CsvRecord) (c : CacheState) (key s header : String)
    (rows : List String) (keyField : String)
    (hd : dget d key = none)
    (htr : tr csv_url = .ok s)
    (hs : splitlines s = header :: rows)
    (hk : (strSplit delim header)[kp]? = some keyField) :
    (∀ k, dget (WebDict_get (WebCSV_config csv_url delim kp) tr d c key).map k
        = match lastMatchingRow (strSplit delim header) delim keyField k rows with
          | some line => some (csv_row_record (strSplit delim header) delim line)
          | none => dget d k) ∧
    (∀ u n, WebTSV_config u n = WebCSV_config u (Char.ofNat 9) n) := by
  refine ⟨?_, fun u n => rfl⟩
  intro k
  have hf : fetch_step false tr c csv_url = ⟨.ok s, c, 1⟩ := by
    simp [fetch_step, «_retrieve», htr]
  have hload : WebCSV_load_lines delim kp d key s
      = (rows.foldl (WebCSV_insert_row (strSplit delim header) delim keyField) d, none) := by
    simp [WebCSV_load_lines, hs, hk]
  have hmap : (WebDict_get (WebCSV_config csv_url delim kp) tr d c key).map
      = rows.foldl (WebCSV_insert_row (strSplit delim header) delim keyField) d := by
    cases hw : dget (rows.foldl (WebCSV_insert_row (strSplit delim header) delim keyField) d) key with
    | none => simp [WebDict_get, WebCSV_config, hd, hf, hload, hw]
    | some w => simp [WebDict_get, WebCSV_config, hd, hf, hload, hw]
  rw [hmap]
  exact insert_row_fold_lookup _ _ _ _ _ _

/-- A concrete 3-data-row table with a duplicate key `2`. -/
def tableText : String := "id,name\n1,a\n2,b\n2,c"

/-- A transport serving `tableText` at the fixed table URL. -/
def trCsv : Transport := fun u =>
  if u = "http://t/table" then .ok tableText else .error "nodename nor servname provided"

/-- Witness for C4: after looking up `"2"` on the comma table, the entry at
`"2"` is the full record of the *later* `2` row. -/
theorem webcsv_flood_last_row_wins_witness :
    dget (WebDict_get (WebCSV_config "http://t/table" (Char.ofNat 44) 0)
        trCsv [] [] "2").map "2"
      = some [("id", "2"), ("name", "c")] := by
  have h := (webcsv_flood_last_row_wins "http://t/table" (Char.ofNat 44) 0 trCsv [] []
    "2" tableText "id,name" ["1,a", "2,b", "2,c"] "id" rfl (by decide) (by decide)
    (by decide)).1 "2"
  exact h.trans (by decide)

/-- **C8.** The cached fetch memoizes by exact URL string: a miss issues
exactly one underlying transport call and caches the returned bytes, and
the immediately following cached fetch of the same URL returns those bytes
with zero transport calls. The capacity is the fixed 65536 of the
`lru_cache` decorator, with the least-recently-used entry evicted when the
bound would be exceeded. The cache is module-level state shared by every
map instance with caching enabled: after one map instance's lookup has
fetched a URL, a second instance's lookup of the same URL issues no
further transport call — at most one transport call between them. -/
theorem cached_fetch_lru_shared {P1 V1 P2 V2 : Type} (tr : Transport) (c : CacheState)
    (url data : String) (cfg1 : Config P1 V1) (cfg2 : Config P2 V2)
    (d1 : Dict V1) (d2 : Dict V2) (k1 k2 : String)
    (hmiss : dget c url = none) (htr : tr url = .ok data)
    (hc1 : cfg1.cache_enabled = true) (hc2 : cfg2.cache_enabled = true)
    (hu1 : cfg1.make_url k1 = some url) (hu2 : cfg2.make_url k2 = some url)
    (hd1 : dget d1 k1 = none) (hd2 : dget d2 k2 = none) :
    CACHE_MAXSIZE = 65536 ∧
    («_cached_retrieve» tr c url).result = .ok data ∧
    («_cached_retrieve» tr c url).transportCalls = 1 ∧
    («_cached_retrieve» tr («_cached_retrieve» tr c url).cache url).result = .ok data ∧
    («_cached_retrieve» tr («_cached_retrieve» tr c url).cache url).transportCalls = 0 ∧
    (c.length = CACHE_MAXSIZE →
      («_cached_retrieve» tr c url).cache = (url, data) :: c.dropLast) ∧
    (WebDict_get cfg1 tr d1 c k1).count.transportCalls = 1 ∧
    (WebDict_get cfg2 tr d2 (WebDict_get cfg1 tr d1 c k1).cache k2).count.transportCalls
      = 0 := by
  have h1 : «_cached_retrieve» tr c url
      = ⟨.ok data,
          if CACHE_MAXSIZE < ((url, data) :: c).length
            then ((url, data) :: c).dropLast else (url, data) :: c, 1⟩ := by
    simp [«_cached_retrieve», «_retrieve», hmiss, htr]
  have hhead : dget (if CACHE_MAXSIZE < c.length + 1
      then ((url, data) :: c).dropLast else (url, data) :: c) url = some data := by
    by_cases hcond : CACHE_MAXSIZE < c.length + 1
    · rw [if_pos hcond]
      cases c with
      | nil => simp [CACHE_MAXSIZE] at hcond
      | cons x xs =>
        show dget ((url, data) :: (x :: xs).dropLast) url = some data
        simp [dget]
    · rw [if_neg hcond]
      simp [dget]
  refine ⟨rfl, ?_, ?_, ?_, ?_, ?_, ?_, ?_⟩
  · rw [h1]
  · rw [h1]
  · rw [h1]
    simp [«_cached_retrieve», hhead]
  · rw [h1]
    simp [«_cached_retrieve», hhead]
  · intro hlen
    rw [h1]
    have hcond : CACHE_MAXSIZE < ((url, data) :: c).length := by
      rw [List.length_cons, hlen]
      exact Nat.lt_succ_self _
    show (if CACHE_MAXSIZE < ((url, data) :: c).length then ((url, data) :: c).dropLast
        else (url, data) :: c) = (url, data) :: c.dropLast
    rw [if_pos hcond]
    cases c with
    | nil => simp [CACHE_MAXSIZE] at hlen
    | cons x xs => rfl
  · have hcc := @WebDict_get_miss_cache_count P1 V1 cfg1 tr d1 c k1 url hd1 hu1
    rw [hcc.2, hc1]
    simp [fetch_step, h1]
  · have hcc1 := @WebDict_get_miss_cache_count P1 V1 cfg1 tr d1 c k1 url hd1 hu1
    have hcache1 : (WebDict_get cfg1 tr d1 c k1).cache
        = (if CACHE_MAXSIZE < ((url, data) :: c).length
            then ((url, data) :: c).dropLast else (url, data) :: c) := by
      rw [hcc1.1, hc1]
      simp [fetch_step, h1]
    have hcc2 := @WebDict_get_miss_cache_count P2 V2 cfg2 tr d2
      (WebDict_get cfg1 tr d1 c k1).cache k2 url hd2 hu2
    rw [hcc2.2, hc2, hcache1]
    simp [fetch_step, «_cached_retrieve», hhead]

/-- Witness for C8: `cfgA` and `cfgDefault` are two distinct map instances
with caching enabled resolving the same URL; the first lookup makes the one
transport call, the second makes none. -/
theorem cached_fetch_lru_shared_witness :
    CACHE_MAXSIZE = 65536 ∧
    («_cached_retrieve» trA [] "http://t/a").result = .ok "payload" ∧
    («_cached_retrieve» trA [] "http://t/a").transportCalls = 1 ∧
    («_cached_retrieve» trA («_cached_retrieve» trA [] "http://t/a").cache
        "http://t/a").result = .ok "payload" ∧
    («_cached_retrieve» trA («_cached_retrieve» trA [] "http://t/a").cache
        "http://t/a").transportCalls = 0 ∧
    (([] : CacheState).length = CACHE_MAXSIZE →
      («_cached_retrieve» trA [] "http://t/a").cache
        = ("http://t/a", "payload") :: ([] : CacheState).dropLast) ∧
    (WebDict_get cfgA trA [] [] "a").count.transportCalls = 1 ∧
    (WebDict_get cfgDefault trA [] (WebDict_get cfgA trA [] [] "a").cache
        "a").count.transportCalls = 0 :=
  cached_fetch_lru_shared trA [] "http://t/a" "payload" cfgA cfgDefault [] [] "a" "a"
    rfl (by decide) rfl rfl (by decide) (by decide) rfl rfl
